import Mathlib

/-!
Shallow embedding of `misc/export_to_kml.py`: a transcoder from a
GeoDataFrame-like record collection to a list of styled KML features,
together with the ESRI input-path dispatcher `esri_to_gdf`.

Coordinates, scales and widths are modelled as rationals (the Python code
only transports these values; it performs no arithmetic on them apart from
the external centroid and reprojection collaborators, which are passed in
as function parameters). Colors are the simplekml color strings. Python
truthiness of the optional string parameters (`None` and `""` are falsy)
is modelled explicitly.
-/

namespace KmlExport

abbrev Coord := ℚ × ℚ

/-- simplekml color constants used as defaults in the source. -/
def Color.red : String := "ff0000ff"

def Color.white : String := "ffffffff"

/-- Python truthiness of an optional string: `None` and `""` are falsy. -/
def pyTruthy : Option String → Bool
  | none => false
  | some s => s != ""

/-- A pandas cell value, as far as the source inspects it (it only ever
applies `str(...)` to a cell). -/
inductive CellValue where
  | pynone
  | nan
  | str (s : String)
  | int (n : Int)
deriving Repr, DecidableEq

/-- Python `str(...)` on a cell value: `str(None) = "None"`,
`str(nan) = "nan"`. -/
def CellValue.pyStr : CellValue → String
  | .pynone => "None"
  | .nan => "nan"
  | .str s => s
  | .int n => toString n

/-- Shapely geometry as consumed by `export_kml`: the six supported kinds
plus a catch-all carrying the `geom_type` string of an unsupported kind
(e.g. "GeometryCollection"). A polygon is an exterior ring plus a list of
interior rings; multi-kinds are lists of parts. -/
inductive Geometry where
  | point (c : Coord)
  | multiPoint (points : List Coord)
  | lineString (coords : List Coord)
  | multiLineString (lines : List (List Coord))
  | polygon (exterior : List Coord) (interiors : List (List Coord))
  | multiPolygon (parts : List (List Coord × List (List Coord)))
  | unsupported (typeName : String)
deriving Repr, DecidableEq

/-- Shapely `geom_type` attribute. -/
def Geometry.geom_type : Geometry → String
  | .point _ => "Point"
  | .multiPoint _ => "MultiPoint"
  | .lineString _ => "LineString"
  | .multiLineString _ => "MultiLineString"
  | .polygon _ _ => "Polygon"
  | .multiPolygon _ => "MultiPolygon"
  | .unsupported t => t

/-- One input record: an optional geometry plus the attribute cells of its
row (column name to cell value). -/
structure Record where
  geometry : Option Geometry
  attrs : List (String × CellValue)
deriving Repr, DecidableEq

/-- Row lookup `row[col]` for a column present in the frame. -/
def Record.cell (r : Record) (col : String) : CellValue :=
  (r.attrs.lookup col).getD .pynone

/-- The GeoDataFrame as far as `export_kml` inspects it: its CRS (as the
EPSG code reported by `crs.to_epsg()`, or `none` when the frame has no
CRS), its column names, and its records in iteration order. -/
structure GeoDataFrame where
  crs : Option Int := none
  columns : List String := []
  records : List Record := []
deriving Repr, DecidableEq

/-- The keyword parameters of `export_kml`, with the source defaults. -/
structure Config where
  label_col : Option String := none
  show_labels : Bool := true
  line_color : String := Color.red
  line_width : ℚ := 3/2
  poly_fill : Int := 0
  poly_color : Option String := none
  label_color : String := Color.white
  label_scale : ℚ := 1
  point_icon_scale : ℚ := 1
  point_icon_color : String := Color.red
deriving Repr, DecidableEq

/-! ### simplekml output model -/

structure IconStyle where
  scale : Option ℚ := none
  color : Option String := none
deriving Repr, DecidableEq

structure LabelStyle where
  scale : Option ℚ := none
  color : Option String := none
deriving Repr, DecidableEq

structure LineStyle where
  color : Option String := none
  width : Option ℚ := none
deriving Repr, DecidableEq

structure PolyStyle where
  fill : Option Int := none
  color : Option String := none
deriving Repr, DecidableEq

/-- An inline simplekml style; attributes the code never assigns stay
unset (`none`). -/
structure Style where
  iconstyle : IconStyle := {}
  labelstyle : LabelStyle := {}
  linestyle : LineStyle := {}
  polystyle : PolyStyle := {}
deriving Repr, DecidableEq

/-- A simplekml `Polygon` geometry: one outer boundary and the list of
inner boundaries currently stored. -/
structure KmlPolygon where
  outerboundaryis : List Coord := []
  innerboundaryis : List (List Coord) := []
deriving Repr, DecidableEq

/-- simplekml's `innerboundaryis` setter: assigning a single ring (a list
of coordinate tuples) REPLACES the previously stored inner boundaries with
exactly that one ring (the setter resets its ring list on every call; a
list of tuples is normalised to a one-element list of rings). -/
def setInnerboundaryis (p : KmlPolygon) (ring : List Coord) : KmlPolygon :=
  { p with innerboundaryis := [ring] }

/-- The source's polygon construction:
`pol.outerboundaryis = exterior; for interior in interiors: pol.innerboundaryis = interior`. -/
def buildKmlPolygon (exterior : List Coord) (interiors : List (List Coord)) : KmlPolygon :=
  interiors.foldl setInnerboundaryis { outerboundaryis := exterior, innerboundaryis := [] }

/-- A part of a simplekml `MultiGeometry` (parts carry no style of their
own; the style sits on the multigeometry). -/
inductive GeomPart where
  | pt (coords : List Coord)
  | line (coords : List Coord)
  | poly (p : KmlPolygon)
deriving Repr, DecidableEq

/-- One placemark appended to the KML document. `name = none` models a
feature created without a name argument (simplekml leaves the name
unset). -/
inductive Feature where
  | point (name : Option String) (coords : List Coord) (style : Style)
  | linestring (name : Option String) (coords : List Coord) (style : Style)
  | polygon (name : Option String) (poly : KmlPolygon) (style : Style)
  | multigeometry (name : Option String) (parts : List GeomPart) (style : Style)
deriving Repr, DecidableEq

def Feature.name : Feature → Option String
  | .point n _ _ => n
  | .linestring n _ _ => n
  | .polygon n _ _ => n
  | .multigeometry n _ _ => n

def Feature.style : Feature → Style
  | .point _ _ s => s
  | .linestring _ _ s => s
  | .polygon _ _ s => s
  | .multigeometry _ _ s => s

def Feature.innerRings : Feature → List (List Coord)
  | .polygon _ p _ => p.innerboundaryis
  | _ => []

/-! ### The transcoder -/

/-- The label resolution
`str(row[label_col]) if label_col and label_col in gdf.columns else ""`. -/
def resolveLabel (cfg : Config) (columns : List String) (r : Record) : String :=
  if pyTruthy cfg.label_col && columns.contains (cfg.label_col.getD "") then
    (r.cell (cfg.label_col.getD "")).pyStr
  else ""

/-- The recurring `label_scale if show_labels and label else 0`. -/
def labelScaleFor (cfg : Config) (label : String) : ℚ :=
  if cfg.show_labels && label != "" then cfg.label_scale else 0

/-- Style assigned in the Point and MultiPoint branches. -/
def pointStyle (cfg : Config) (label : String) : Style :=
  { iconstyle := { scale := some cfg.point_icon_scale, color := some cfg.point_icon_color }
    labelstyle := { scale := some (labelScaleFor cfg label), color := some cfg.label_color } }

/-- Style assigned in the LineString and MultiLineString branches. -/
def lineStyle (cfg : Config) (label : String) : Style :=
  { linestyle := { color := some cfg.line_color, width := some cfg.line_width }
    labelstyle := { scale := some (labelScaleFor cfg label), color := some cfg.label_color } }

/-- The `_style_polygon` helper: line color/width, fill flag always assigned, fill
color only when `poly_fill and poly_color` is truthy, label scale forced
to 0. -/
def _style_polygon (s0 : Style) (line_color : String) (line_width : ℚ)
    (poly_fill : Int) (poly_color : Option String) : Style :=
  let s := { s0 with linestyle := { s0.linestyle with color := some line_color } }
  let s := { s with linestyle := { s.linestyle with width := some line_width } }
  let s := { s with polystyle := { s.polystyle with fill := some poly_fill } }
  let s := if poly_fill != 0 && pyTruthy poly_color then
             { s with polystyle := { s.polystyle with color := poly_color } }
           else s
  { s with labelstyle := { s.labelstyle with scale := some 0 } }

/-- The centroid-label block guarded by
`geom_type in ("Polygon", "MultiPolygon") and show_labels and label`
(the kind guard is discharged by the caller). -/
def centroidLabel (cfg : Config) (centroid : Geometry → Coord)
    (geom : Geometry) (label : String) : List Feature :=
  if cfg.show_labels && label != "" then
    [.point (some label) [centroid geom]
      { iconstyle := { scale := some 0 }
        labelstyle := { scale := some cfg.label_scale, color := some cfg.label_color } }]
  else []

/-- The body of the `for _, row in gdf.iterrows()` loop: the features
appended to the document for this record and the warnings printed for it.
`centroid` is the shapely centroid collaborator. -/
def processRecord (cfg : Config) (columns : List String)
    (centroid : Geometry → Coord) (r : Record) : List Feature × List String :=
  match r.geometry with
  | none => ([], [])
  | some geom =>
    let label := resolveLabel cfg columns r
    let kmlName : Option String := some (if cfg.show_labels then label else "")
    match geom with
    | .point c =>
        ([.point kmlName [c] (pointStyle cfg label)], [])
    | .multiPoint pts =>
        ([.multigeometry kmlName (pts.map fun p => .pt [p]) (pointStyle cfg label)], [])
    | .lineString coords =>
        ([.linestring kmlName coords (lineStyle cfg label)], [])
    | .multiLineString lines =>
        ([.multigeometry kmlName (lines.map GeomPart.line) (lineStyle cfg label)], [])
    | .polygon ext ints =>
        (.polygon none (buildKmlPolygon ext ints)
            (_style_polygon {} cfg.line_color cfg.line_width cfg.poly_fill cfg.poly_color)
          :: centroidLabel cfg centroid (.polygon ext ints) label, [])
    | .multiPolygon parts =>
        (.multigeometry none (parts.map fun pr => .poly (buildKmlPolygon pr.1 pr.2))
            (_style_polygon {} cfg.line_color cfg.line_width cfg.poly_fill cfg.poly_color)
          :: centroidLabel cfg centroid (.multiPolygon parts) label, [])
    | .unsupported t =>
        ([], ["Warning: Unsupported geometry type \x27" ++ t ++ "\x27 skipped."])

/-- The record loop: features and warnings accumulated in record order. -/
def transcodeRecords (cfg : Config) (columns : List String)
    (centroid : Geometry → Coord) : List Record → List Feature × List String
  | [] => ([], [])
  | r :: rs =>
      let out := processRecord cfg columns centroid r
      let rest := transcodeRecords cfg columns centroid rs
      (out.1 ++ rest.1, out.2 ++ rest.2)

/-- The guard `gdf.crs and gdf.crs.to_epsg() != 4326`: whether the
reprojection collaborator is invoked. -/
def reprojectInvoked (gdf : GeoDataFrame) : Bool :=
  match gdf.crs with
  | none => false
  | some code => code != 4326

/-- The driver `export_kml`: reproject to WGS84 if needed, then transcode every
record. `to_crs` is the external reprojection collaborator (target
EPSG:4326), `centroid` the external centroid collaborator. Returns the
document's features and the printed warnings. -/
def export_kml (to_crs : GeoDataFrame → GeoDataFrame) (centroid : Geometry → Coord)
    (gdf : GeoDataFrame) (cfg : Config) : List Feature × List String :=
  let g := if reprojectInvoked gdf then to_crs gdf else gdf
  transcodeRecords cfg g.columns centroid g.records

/-! ### The ESRI loader dispatch -/

/-- Where `esri_to_gdf` routes a path: a shapefile read, or a
geodatabase read with a container path and a layer name. -/
inductive LoadSource where
  | shp (path : String)
  | gdb (container : String) (layer : String)
deriving Repr, DecidableEq

/-- Whether the second list starts with the first (on characters). -/
def charsStartsWith : List Char → List Char → Bool
  | [], _ => true
  | _ :: _, [] => false
  | a :: as, b :: bs => a == b && charsStartsWith as bs

/-- Whether the needle occurs somewhere in the haystack (on characters). -/
def charsContain (hay needle : List Char) : Bool :=
  charsStartsWith needle hay ||
    match hay with
    | [] => false
    | _ :: t => charsContain t needle

/-- Python's substring test `needle in hay`. -/
def strContains (hay needle : String) : Bool :=
  charsContain hay.data needle.data

/-- The characters before the first occurrence of the needle (the whole
list when the needle does not occur): `hay.split(needle)[0]`. -/
def charsBeforeFirst (hay needle : List Char) : List Char :=
  match hay with
  | [] => []
  | h :: t => if charsStartsWith needle (h :: t) then [] else h :: charsBeforeFirst t needle

/-- Python `aoi.split(sep)[0]`: the text before the first occurrence of `sep`. -/
def splitFirst (hay sep : String) : String :=
  ⟨charsBeforeFirst hay.data sep.data⟩

/-- The characters after the last `/` (the current path component). -/
def basenameChars (cs : List Char) : List Char :=
  cs.foldl (fun acc c => if c == '/' then [] else acc ++ [c]) []

/-- POSIX `os.path.basename`. -/
def basename (p : String) : String :=
  ⟨basenameChars p.data⟩

/-- The loader `esri_to_gdf`: dispatch on whether the path contains `.shp`, else
`.gdb` (container = text up to and including the first `.gdb`, layer =
`os.path.basename(aoi)`), else raise. -/
def esri_to_gdf (aoi : String) : Except String LoadSource :=
  if strContains aoi ".shp" then
    .ok (.shp aoi)
  else if strContains aoi ".gdb" then
    .ok (.gdb (splitFirst aoi ".gdb" ++ ".gdb") (basename aoi))
  else
    .error "Format not recognized. Please provide a shp or featureclass (gdb)!"

/-- Whether a string ends with the given suffix (on characters); used only
to state that a path is not a `.shp`-extension path. -/
def strEndsWith (s ending : String) : Bool :=
  charsStartsWith ending.data.reverse s.data.reverse

/-- Helper: the record loop accumulates, in record order, exactly the
per-record features and warnings. -/
theorem transcodeRecords_eq_flatMap (cfg : Config) (columns : List String)
    (centroid : Geometry → Coord) (rs : List Record) :
    transcodeRecords cfg columns centroid rs =
      (rs.flatMap fun r => (processRecord cfg columns centroid r).1,
       rs.flatMap fun r => (processRecord cfg columns centroid r).2) := by
  induction rs with
  | nil => rfl
  | cons r rs ih => simp [transcodeRecords, ih]

/-- C1: counterexample evaluation. A Polygon record with two interior rings
emits a polygon feature carrying ONLY the last interior ring: each
`pol.innerboundaryis = ...` assignment in the source loop replaces the
previously stored hole (simplekml setter semantics), so the first hole is
lost and the claim's "every inner ring in original order" fails. -/
theorem c1_two_hole_polygon_drops_first_hole :
    (processRecord {} [] (fun _ => (0, 0))
        { geometry := some (.polygon [(0,0),(4,0),(4,4),(0,4),(0,0)]
            [[(1,1),(2,1),(1,2),(1,1)], [(3,3),(3,2),(2,3),(3,3)]]),
          attrs := [] }).1.map Feature.innerRings
      = [[[(3,3),(3,2),(2,3),(3,3)]]] := by decide

/-- C6: a record with null geometry is skipped with no output feature and no
diagnostic; a record of unsupported geometry kind is skipped with exactly
one warning naming the kind and no output feature (hence no centroid
label in either case); and in both cases the loop continues with the
remaining records of the run. -/
theorem c6_skip_null_and_unsupported (cfg : Config) (columns : List String)
    (centroid : Geometry → Coord) :
    (∀ r : Record, r.geometry = none →
        processRecord cfg columns centroid r = ([], [])) ∧
    (∀ (r : Record) (t : String), r.geometry = some (.unsupported t) →
        processRecord cfg columns centroid r =
          ([], ["Warning: Unsupported geometry type \x27" ++ t ++ "\x27 skipped."])) ∧
    (∀ (r : Record) (rs : List Record),
        (r.geometry = none → transcodeRecords cfg columns centroid (r :: rs) =
           transcodeRecords cfg columns centroid rs) ∧
        (∀ t : String, r.geometry = some (.unsupported t) →
           transcodeRecords cfg columns centroid (r :: rs) =
             ((transcodeRecords cfg columns centroid rs).1,
              ("Warning: Unsupported geometry type \x27" ++ t ++ "\x27 skipped.")
                :: (transcodeRecords cfg columns centroid rs).2))) := by
  refine ⟨fun r h => by simp [processRecord, h], fun r t h => by simp [processRecord, h],
    fun r rs => ⟨fun h => ?_, fun t h => ?_⟩⟩
  · simp [transcodeRecords, processRecord, h]
  · simp [transcodeRecords, processRecord, h]

theorem c6_witness :
    processRecord {} [] (fun _ => (0, 0)) { geometry := none, attrs := [] } = ([], []) ∧
    processRecord {} [] (fun _ => (0, 0))
        { geometry := some (.unsupported "GeometryCollection"), attrs := [] } =
      ([], ["Warning: Unsupported geometry type \x27GeometryCollection\x27 skipped."]) :=
  ⟨(c6_skip_null_and_unsupported {} [] (fun _ => (0, 0))).1 _ rfl,
   (c6_skip_null_and_unsupported {} [] (fun _ => (0, 0))).2.1 _ "GeometryCollection" rfl⟩

/-- C7: for every Polygon or MultiPolygon record, the polygon feature itself
is emitted with no name attached and with its own label style scale set to
0 unconditionally (the statement has no hypothesis on `show_labels` or on
the label, so it holds even when both would show a label). -/
theorem c7_polygon_feature_unnamed (cfg : Config) (columns : List String)
    (centroid : Geometry → Coord) (r : Record) (geom : Geometry)
    (hg : r.geometry = some geom)
    (hkind : (∃ e i, geom = Geometry.polygon e i) ∨ ∃ ps, geom = Geometry.multiPolygon ps) :
    ∃ f rest, (processRecord cfg columns centroid r).1 = f :: rest ∧
      f.name = none ∧ f.style.labelstyle.scale = some 0 := by
  rcases hkind with ⟨e, i, h⟩ | ⟨ps, h⟩
  · subst h
    refine ⟨Feature.polygon none (buildKmlPolygon e i)
        (_style_polygon {} cfg.line_color cfg.line_width cfg.poly_fill cfg.poly_color),
      centroidLabel cfg centroid (Geometry.polygon e i) (resolveLabel cfg columns r),
      by simp [processRecord, hg], rfl, rfl⟩
  · subst h
    refine ⟨Feature.multigeometry none (ps.map fun pr => GeomPart.poly (buildKmlPolygon pr.1 pr.2))
        (_style_polygon {} cfg.line_color cfg.line_width cfg.poly_fill cfg.poly_color),
      centroidLabel cfg centroid (Geometry.multiPolygon ps) (resolveLabel cfg columns r),
      by simp [processRecord, hg], rfl, rfl⟩

theorem c7_witness :
    ∃ f rest,
      (processRecord { show_labels := true, label_col := some "nm" } ["nm"] (fun _ => (0, 0))
          { geometry := some (.polygon [(0,0),(1,0),(0,1),(0,0)] []),
            attrs := [("nm", .str "Zone1")] }).1 = f :: rest ∧
        f.name = none ∧ f.style.labelstyle.scale = some 0 :=
  c7_polygon_feature_unnamed { show_labels := true, label_col := some "nm" } ["nm"]
    (fun _ => (0, 0))
    { geometry := some (.polygon [(0,0),(1,0),(0,1),(0,0)] []),
      attrs := [("nm", .str "Zone1")] }
    (.polygon [(0,0),(1,0),(0,1),(0,0)] []) rfl (Or.inl ⟨_, _, rfl⟩)

/-- C8: reprojection is invoked exactly when the input has a CRS whose EPSG
code differs from 4326; it is never invoked when the code equals 4326; and
when the CRS is unset no reprojection is attempted and the records are
transcoded as-is. -/
theorem c8_reprojection_condition (gdf : GeoDataFrame) :
    (reprojectInvoked gdf = true ↔ ∃ e, gdf.crs = some e ∧ e ≠ 4326) ∧
    (gdf.crs = some 4326 → reprojectInvoked gdf = false) ∧
    (gdf.crs = none → reprojectInvoked gdf = false) ∧
    (reprojectInvoked gdf = false → ∀ to_crs centroid cfg,
       export_kml to_crs centroid gdf cfg =
         transcodeRecords cfg gdf.columns centroid gdf.records) ∧
    (reprojectInvoked gdf = true → ∀ to_crs centroid cfg,
       export_kml to_crs centroid gdf cfg =
         transcodeRecords cfg (to_crs gdf).columns centroid (to_crs gdf).records) := by
  refine ⟨?_, ?_, ?_, ?_, ?_⟩
  · cases hc : gdf.crs <;> simp [reprojectInvoked, hc]
  · intro h; simp [reprojectInvoked, h]
  · intro h; simp [reprojectInvoked, h]
  · intro h to_crs centroid cfg; simp [export_kml, h]
  · intro h to_crs centroid cfg; simp [export_kml, h]

theorem c8_witness :
    reprojectInvoked { crs := some 3005 } = true ∧
    reprojectInvoked { crs := some 4326 } = false ∧
    reprojectInvoked { crs := none } = false :=
  ⟨(c8_reprojection_condition { crs := some 3005 }).1.mpr ⟨3005, rfl, by decide⟩,
   (c8_reprojection_condition { crs := some 4326 }).2.1 rfl,
   (c8_reprojection_condition { crs := none }).2.2.1 rfl⟩

/-- C2: for every point, multipoint, line or multiline record, the emitted
feature's label style scale is 0 whenever `show_labels` is false or the
resolved label string is empty — regardless of the configured
`label_scale` — and equals the configured `label_scale` otherwise. -/
theorem c2_label_scale_zero_or_configured (cfg : Config) (columns : List String)
    (centroid : Geometry → Coord) (r : Record) (geom : Geometry) (f : Feature)
    (hg : r.geometry = some geom)
    (hkind : (∃ c, geom = Geometry.point c) ∨ (∃ ps, geom = Geometry.multiPoint ps) ∨
      (∃ cs, geom = Geometry.lineString cs) ∨ ∃ ls, geom = Geometry.multiLineString ls)
    (hf : f ∈ (processRecord cfg columns centroid r).1) :
    ((cfg.show_labels = false ∨ resolveLabel cfg columns r = "") →
        f.style.labelstyle.scale = some 0) ∧
    (cfg.show_labels = true → resolveLabel cfg columns r ≠ "" →
        f.style.labelstyle.scale = some cfg.label_scale) := by
  have hscale : f.style.labelstyle.scale
      = some (labelScaleFor cfg (resolveLabel cfg columns r)) := by
    rcases hkind with ⟨c, h⟩ | ⟨ps, h⟩ | ⟨cs, h⟩ | ⟨ls, h⟩ <;> subst h <;>
      simp [processRecord, hg] at hf <;> subst hf <;> rfl
  rw [hscale]
  constructor
  · rintro (h | h) <;> simp [labelScaleFor, h]
  · intro h1 h2
    simp [labelScaleFor, h1, h2]

theorem c2_witness :
    (Feature.point (some "") [((1:ℚ), (2:ℚ))]
        (pointStyle { show_labels := false, label_scale := 5 } "")).style.labelstyle.scale
      = some 0 :=
  (c2_label_scale_zero_or_configured { show_labels := false, label_scale := 5 } []
      (fun _ => (0, 0)) { geometry := some (.point (1, 2)), attrs := [] } (.point (1, 2))
      (Feature.point (some "") [((1:ℚ), (2:ℚ))]
        (pointStyle { show_labels := false, label_scale := 5 } ""))
      rfl (Or.inl ⟨(1, 2), rfl⟩) (by decide)).1 (Or.inl rfl)

/-- C3: for every Polygon or MultiPolygon record with `show_labels` true and
a non-empty resolved label, the record emits exactly the polygon feature
followed immediately by one extra point feature placed at the centroid of
the source geometry, named with the label, with icon scale 0 and with
label scale and color equal to the configured `label_scale` and
`label_color`; when `show_labels` is false or the label is empty, only the
polygon feature is emitted. -/
theorem c3_centroid_label_feature (cfg : Config) (columns : List String)
    (centroid : Geometry → Coord) (r : Record) (geom : Geometry)
    (hg : r.geometry = some geom)
    (hkind : (∃ e i, geom = Geometry.polygon e i) ∨ ∃ ps, geom = Geometry.multiPolygon ps) :
    (cfg.show_labels = true → resolveLabel cfg columns r ≠ "" →
      ∃ polyF, (processRecord cfg columns centroid r).1 =
        [polyF,
         Feature.point (some (resolveLabel cfg columns r)) [centroid geom]
           { iconstyle := { scale := some 0 }
             labelstyle := { scale := some cfg.label_scale, color := some cfg.label_color } }]) ∧
    ((cfg.show_labels = false ∨ resolveLabel cfg columns r = "") →
      ∃ polyF, (processRecord cfg columns centroid r).1 = [polyF]) := by
  constructor
  · intro h1 h2
    rcases hkind with ⟨e, i, h⟩ | ⟨ps, h⟩
    · subst h
      refine ⟨Feature.polygon none (buildKmlPolygon e i)
          (_style_polygon {} cfg.line_color cfg.line_width cfg.poly_fill cfg.poly_color), ?_⟩
      simp [processRecord, hg, centroidLabel, h1, h2]
    · subst h
      refine ⟨Feature.multigeometry none
          (ps.map fun pr => GeomPart.poly (buildKmlPolygon pr.1 pr.2))
          (_style_polygon {} cfg.line_color cfg.line_width cfg.poly_fill cfg.poly_color), ?_⟩
      simp [processRecord, hg, centroidLabel, h1, h2]
  · intro h
    rcases hkind with ⟨e, i, hk⟩ | ⟨ps, hk⟩
    · subst hk
      refine ⟨Feature.polygon none (buildKmlPolygon e i)
          (_style_polygon {} cfg.line_color cfg.line_width cfg.poly_fill cfg.poly_color), ?_⟩
      rcases h with h | h <;> simp [processRecord, hg, centroidLabel, h]
    · subst hk
      refine ⟨Feature.multigeometry none
          (ps.map fun pr => GeomPart.poly (buildKmlPolygon pr.1 pr.2))
          (_style_polygon {} cfg.line_color cfg.line_width cfg.poly_fill cfg.poly_color), ?_⟩
      rcases h with h | h <;> simp [processRecord, hg, centroidLabel, h]

theorem c3_witness :
    ∃ polyF,
      (processRecord { label_col := some "nm" } ["nm"] (fun _ => (10, 20))
          { geometry := some (.polygon [(0,0),(1,0),(0,1),(0,0)] []),
            attrs := [("nm", .str "Zone1")] }).1 =
        [polyF,
         Feature.point (some "Zone1") [((10:ℚ), (20:ℚ))]
           { iconstyle := { scale := some 0 }
             labelstyle := { scale := some 1, color := some Color.white } }] := by
  have h := (c3_centroid_label_feature { label_col := some "nm" } ["nm"] (fun _ => (10, 20))
      { geometry := some (.polygon [(0,0),(1,0),(0,1),(0,0)] []),
        attrs := [("nm", .str "Zone1")] }
      (.polygon [(0,0),(1,0),(0,1),(0,0)] []) rfl (Or.inl ⟨_, _, rfl⟩)).1 rfl (by decide)
  simpa using h

/-- C9: the transcoder is deterministic — two runs with identical
collaborators, input and configuration produce identical output — and the
output features are the concatenation, in input record order, of each
record's features (a polygon feature directly followed by its optional
centroid label), so output order equals input order up to that pairing. -/
theorem c9_deterministic_in_order (to_crs to_crs2 : GeoDataFrame → GeoDataFrame)
    (centroid centroid2 : Geometry → Coord) (gdf : GeoDataFrame) (cfg : Config)
    (ht : to_crs = to_crs2) (hc : centroid = centroid2) :
    export_kml to_crs centroid gdf cfg = export_kml to_crs2 centroid2 gdf cfg ∧
    (export_kml to_crs centroid gdf cfg).1 =
      ((if reprojectInvoked gdf then to_crs gdf else gdf).records.flatMap fun r =>
        (processRecord cfg (if reprojectInvoked gdf then to_crs gdf else gdf).columns
          centroid r).1) := by
  subst ht hc
  refine ⟨rfl, ?_⟩
  simp [export_kml, transcodeRecords_eq_flatMap]

theorem c9_witness :
    (export_kml (fun g => g) (fun _ => (0, 0))
        { crs := none, columns := [],
          records := [{ geometry := some (.point (1, 2)), attrs := [] }] } {}).1 =
      (({ crs := none, columns := [],
          records := [{ geometry := some (.point (1, 2)), attrs := [] }] } :
            GeoDataFrame).records.flatMap fun r =>
        (processRecord {} [] (fun _ => (0, 0)) r).1) := by
  have h := (c9_deterministic_in_order (fun g => g) (fun g => g) (fun _ => (0, 0))
      (fun _ => (0, 0))
      { crs := none, columns := [],
        records := [{ geometry := some (.point (1, 2)), attrs := [] }] } {} rfl rfl).2
  simpa using h

/-- C4: counterexample. With `poly_fill = 1` (truthy) and `poly_color` the
non-null empty string, no fill color is set on the style, refuting the
claimed "iff `poly_color` is non-null": the source gates on Python
truthiness, which also rejects the empty string. -/
theorem c4_counterexample_empty_color :
    (_style_polygon {} Color.red (3/2) 1 (some "")).polystyle.color = none ∧
    (some "" : Option String) ≠ none ∧ (1 : Int) ≠ 0 := by
  refine ⟨rfl, by decide, by decide⟩

/-- C4 (amended): a fill color is set on a polygon style iff `poly_fill` is
truthy AND `poly_color` is a non-null, non-empty color string; in every
other combination no fill color is set, while the fill flag is always set
to `poly_fill` (so with `poly_fill` truthy and `poly_color` null the fill
flag is enabled with no explicit fill color), and when both are truthy the
fill color equals the supplied color. -/
theorem c4_fill_color_gating (s0 : Style) (lc : String) (lw : ℚ) (pf : Int)
    (pc : Option String) (hs : s0.polystyle.color = none) :
    ((_style_polygon s0 lc lw pf pc).polystyle.fill = some pf) ∧
    ((_style_polygon s0 lc lw pf pc).polystyle.color ≠ none ↔
      pf ≠ 0 ∧ ∃ c, pc = some c ∧ c ≠ "") ∧
    (∀ c, pf ≠ 0 → pc = some c → c ≠ "" →
      (_style_polygon s0 lc lw pf pc).polystyle.color = some c) := by
  have hcolor : (_style_polygon s0 lc lw pf pc).polystyle.color
      = if pf != 0 && pyTruthy pc then pc else s0.polystyle.color := by
    by_cases h : (pf != 0 && pyTruthy pc) = true <;> simp [_style_polygon, h]
  have hfill : (_style_polygon s0 lc lw pf pc).polystyle.fill = some pf := by
    by_cases h : (pf != 0 && pyTruthy pc) = true <;> simp [_style_polygon, h]
  refine ⟨hfill, ?_, ?_⟩
  · rw [hcolor, hs]
    cases pc with
    | none => simp [pyTruthy]
    | some c =>
        by_cases hpf : pf = 0
        · simp [pyTruthy, hpf]
        · by_cases hcne : c = "" <;> simp [pyTruthy, hpf, hcne]
  · intro c hpf hpc hcne
    subst hpc
    rw [hcolor]
    simp [pyTruthy, hpf, hcne]

theorem c4_witness :
    (_style_polygon {} Color.red (3/2) 1 (some "aabbccdd")).polystyle.color
      = some "aabbccdd" :=
  (c4_fill_color_gating {} Color.red (3/2) 1 (some "aabbccdd") rfl).2.2 "aabbccdd"
    (by decide) rfl (by decide)

/-- C5: counterexample. The path "data.shpx" is neither a shapefile path
(it does not end in ".shp") nor a geodatabase path (it contains no
".gdb"), yet the loader accepts it as a shapefile instead of raising the
descriptive error, because the source dispatches on a substring test. -/
theorem c5_counterexample_substring_accept :
    esri_to_gdf "data.shpx" = .ok (.shp "data.shpx") ∧
    strEndsWith "data.shpx" ".shp" = false ∧
    strContains "data.shpx" ".gdb" = false :=
  ⟨rfl, rfl, rfl⟩

/-- C5 (amended): the loader routes any path containing ".shp" as a
substring to the shapefile reader, otherwise any path containing ".gdb"
to the geodatabase reader (container = everything up to and including the
first ".gdb", feature class = the path's basename), and raises the
descriptive error exactly for paths containing neither substring, before
any transcoding begins. -/
theorem c5_loader_dispatch (aoi : String) :
    (strContains aoi ".shp" = false → strContains aoi ".gdb" = false →
      esri_to_gdf aoi =
        .error "Format not recognized. Please provide a shp or featureclass (gdb)!") ∧
    (strContains aoi ".shp" = true → esri_to_gdf aoi = .ok (.shp aoi)) ∧
    (strContains aoi ".shp" = false → strContains aoi ".gdb" = true →
      esri_to_gdf aoi = .ok (.gdb (splitFirst aoi ".gdb" ++ ".gdb") (basename aoi))) := by
  refine ⟨fun h1 h2 => ?_, fun h => ?_, fun h1 h2 => ?_⟩ <;>
    simp [esri_to_gdf, *]

theorem c5_witness :
    esri_to_gdf "data.txt" =
      .error "Format not recognized. Please provide a shp or featureclass (gdb)!" :=
  (c5_loader_dispatch "data.txt").1 rfl rfl

/-- C10: the label is the plain string conversion of the label cell, so a
null cell yields the non-empty label "None" (and a NaN cell "nan"), which
counts as a visible label: it is attached as the feature name, the label
scale stays at the configured value, and for polygons the centroid label
feature is still emitted; while a label column absent from the frame
silently resolves every label to the empty string. -/
theorem c10_label_plain_str (cfg : Config) (columns : List String)
    (centroid : Geometry → Coord) (r : Record) (c : String)
    (hcol : cfg.label_col = some c) (hc : c ≠ "") :
    (columns.contains c = false → resolveLabel cfg columns r = "") ∧
    (columns.contains c = true →
      (r.cell c = .nan → resolveLabel cfg columns r = "nan") ∧
      (r.cell c = .pynone →
        resolveLabel cfg columns r = "None" ∧
        (cfg.show_labels = true →
          (∀ p, r.geometry = some (.point p) →
            (processRecord cfg columns centroid r).1 =
              [.point (some "None") [p] (pointStyle cfg "None")] ∧
            (pointStyle cfg "None").labelstyle.scale = some cfg.label_scale) ∧
          (∀ e i, r.geometry = some (.polygon e i) →
            ∃ polyF, (processRecord cfg columns centroid r).1 =
              [polyF,
               Feature.point (some "None") [centroid (.polygon e i)]
                 { iconstyle := { scale := some 0 }
                   labelstyle := { scale := some cfg.label_scale,
                                   color := some cfg.label_color } }])))) := by
  constructor
  · intro h
    have hmem : c ∉ columns := by simpa using h
    simp [resolveLabel, pyTruthy, hcol, hmem]
  · intro h
    have hmem : c ∈ columns := by simpa using h
    have hres : resolveLabel cfg columns r = (r.cell c).pyStr := by
      simp [resolveLabel, pyTruthy, hcol, hc, hmem]
    refine ⟨fun hv => by simp [hres, hv, CellValue.pyStr], fun hv => ?_⟩
    have hres2 : resolveLabel cfg columns r = "None" := by
      simp [hres, hv, CellValue.pyStr]
    refine ⟨hres2, fun hshow => ⟨fun p hp => ?_, fun e i hp => ?_⟩⟩
    · constructor
      · simp [processRecord, hp, hres2, hshow]
      · simp [pointStyle, labelScaleFor, hshow]
    · refine ⟨Feature.polygon none (buildKmlPolygon e i)
          (_style_polygon {} cfg.line_color cfg.line_width cfg.poly_fill cfg.poly_color), ?_⟩
      simp [processRecord, hp, centroidLabel, hres2, hshow]

theorem c10_witness :
    resolveLabel { label_col := some "nm" } ["nm"]
        { geometry := some (.point ((1:ℚ), (2:ℚ))), attrs := [("nm", .pynone)] } = "None" ∧
    resolveLabel { label_col := some "nm" } ["other"]
        { geometry := some (.point ((1:ℚ), (2:ℚ))), attrs := [("nm", .pynone)] } = "" ∧
    (processRecord { label_col := some "nm" } ["nm"] (fun _ => (0, 0))
        { geometry := some (.point ((1:ℚ), (2:ℚ))), attrs := [("nm", .pynone)] }).1 =
      [.point (some "None") [((1:ℚ), (2:ℚ))]
        (pointStyle { label_col := some "nm" } "None")] :=
  ⟨(((c10_label_plain_str { label_col := some "nm" } ["nm"] (fun _ => (0, 0))
        { geometry := some (.point (1, 2)), attrs := [("nm", .pynone)] } "nm" rfl
        (by decide)).2 rfl).2 rfl).1,
   (c10_label_plain_str { label_col := some "nm" } ["other"] (fun _ => (0, 0))
        { geometry := some (.point (1, 2)), attrs := [("nm", .pynone)] } "nm" rfl
        (by decide)).1 rfl,
   (((((c10_label_plain_str { label_col := some "nm" } ["nm"] (fun _ => (0, 0))
        { geometry := some (.point (1, 2)), attrs := [("nm", .pynone)] } "nm" rfl
        (by decide)).2 rfl).2 rfl).2 rfl).1 (1, 2) rfl).1⟩

end KmlExport
